import Mathlib

/-!
Verification of the contract pricing, discount and billing engine of the
educational-center application (source: `src/contracts/models.py` and
`src/lessons/models.py`).

The Python code is shallowly embedded: Django model rows become Lean
structures, querysets become lists, `Decimal` amounts become `ℚ` (Python
`Decimal` arithmetic at the scales used here is exact), and calendar dates
become `ℤ` ordinals (only comparisons of dates occur, so any
order-preserving encoding such as `yyyymmdd` works).  Methods that write to
the database become functions returning the updated row or state.
-/

namespace App

/-- A row of `PriceList` (`src/contracts/models.py`): a time-scoped
price-per-hour for a subject.  `valid_to` exists on the model but is never
consulted by `Subject.current_price`. -/
structure PriceRecord where
  subject : ℕ
  price_per_hour : ℚ
  valid_from : ℤ
  valid_to : Option ℤ := none
  is_active : Bool := true
deriving Repr, DecidableEq

/-- A row of `Discount` joined with the `is_percentage` flag of its
`DiscountType` (`src/contracts/models.py`). -/
structure Discount where
  is_percentage : Bool
  value : ℚ
  valid_from : ℤ
  valid_to : Option ℤ := none
  is_active : Bool := true
  min_subjects : Option ℤ := none
  max_subjects : Option ℤ := none
deriving Repr, DecidableEq

/-- Python truthiness of a nullable integer field (`if discount.min_subjects:`):
both `None` and `0` are falsy. -/
def intTruthy : Option ℤ → Bool
  | none => false
  | some v => v != 0

/-- The date/activity queryset filter in `ContractItem.calculate_discounts`:
`is_active=True, valid_from__lte=today` and
`Q(valid_to__isnull=True) | Q(valid_to__gte=today)`. -/
def discountDateOk (today : ℤ) (d : Discount) : Bool :=
  d.is_active && decide (d.valid_from ≤ today) &&
    (match d.valid_to with
     | none => true
     | some vt => decide (today ≤ vt))

/-- The per-rule amount computed in the loop body of
`ContractItem.calculate_discounts`: `base_price * value / 100` for a
percentage rule, `value` for an absolute rule. -/
def discountAmount (base_price : ℚ) (d : Discount) : ℚ :=
  if d.is_percentage then base_price * d.value / 100 else d.value

/-- `ContractItem.calculate_discounts` (`src/contracts/models.py`): a fold
over the date-filtered catalog mirroring the Python loop with its two
`continue` guards on `min_subjects` / `max_subjects` (Python truthiness, so
a bound of `0` never triggers a guard). -/
def calculate_discounts (base_price : ℚ) (subjects_count today : ℤ)
    (catalog : List Discount) : ℚ :=
  let applicable := catalog.filter (discountDateOk today)
  applicable.foldl
    (fun total d =>
      if intTruthy d.min_subjects && decide (subjects_count < d.min_subjects.getD 0) then
        total
      else if intTruthy d.max_subjects && decide (d.max_subjects.getD 0 < subjects_count) then
        total
      else total + discountAmount base_price d)
    0

/-- A row of `ContractItem` (`src/contracts/models.py`), restricted to the
fields the pricing engine reads or writes. -/
structure ContractItem where
  child : ℕ
  subject : ℕ
  base_price : ℚ
  final_price : ℚ
  is_active : Bool := true
deriving Repr, DecidableEq

/-- `self.contract.items.filter(is_active=True).count()` as used by
`ContractItem.calculate_discounts`; the contract is represented by its list
of items. -/
def activeSubjectsCount (items : List ContractItem) : ℤ :=
  ((items.filter (fun it => it.is_active)).length : ℤ)

/-- `ContractItem.update_final_price` on one row, with the contract's
active-item count supplied by the caller:
`final_price = max(base_price - calculate_discounts(), Decimal('0.00'))`
followed by `save()`. -/
def ContractItem.update_final_price (item : ContractItem)
    (subjects_count today : ℤ) (catalog : List Discount) : ContractItem :=
  { item with
    final_price :=
      max (item.base_price - calculate_discounts item.base_price subjects_count today catalog) 0 }

/-- `ContractItem.update_final_price` at the contract level: the item at
index `k` of the contract's item list is recomputed (the subject count being
derived from the same list, as `self.contract.items` is) and saved back. -/
def updateFinalPriceAt (items : List ContractItem) (k : ℕ) (today : ℤ)
    (catalog : List Discount) : List ContractItem :=
  match items[k]? with
  | none => items
  | some it => items.set k (it.update_final_price (activeSubjectsCount items) today catalog)

/-- A row of `ContractItemDiscount` (`src/contracts/models.py`), the
applied-discount audit record linking a contract item to a discount rule. -/
structure ContractItemDiscount where
  contract_item : ℕ
  discount : ℕ
  discount_amount : ℚ
deriving Repr, DecidableEq

/-- The persistent state touched by a recalculation: the contract's items
and the stored `ContractItemDiscount` rows. -/
structure PricingState where
  items : List ContractItem
  applied : List ContractItemDiscount
deriving Repr, DecidableEq

/-- `ContractItem.update_final_price` viewed on the full pricing state: the
method body only assigns `self.final_price` and calls `self.save()`, so the
stored `ContractItemDiscount` rows are untouched. -/
def updateFinalPriceState (s : PricingState) (k : ℕ) (today : ℤ)
    (catalog : List Discount) : PricingState :=
  { s with items := updateFinalPriceAt s.items k today catalog }

/-- A row of `InvoiceItem` (`src/contracts/models.py`), restricted to the
numeric fields of the billing computation. -/
structure InvoiceItem where
  quantity : ℚ
  unit_price : ℚ
  discount_amount : ℚ
  total_amount : ℚ
deriving Repr, DecidableEq

/-- `InvoiceItem.save`: recomputes
`total_amount = quantity * unit_price - discount_amount` before storing. -/
def InvoiceItem.save (it : InvoiceItem) : InvoiceItem :=
  { it with total_amount := it.quantity * it.unit_price - it.discount_amount }

/-- A row of `Invoice` (`src/contracts/models.py`) with its related
`InvoiceItem` rows, restricted to the fields of the claims. -/
structure Invoice where
  status : String
  due_date : ℤ
  subtotal : ℚ
  total_discount : ℚ
  total_amount : ℚ
  items : List InvoiceItem
deriving Repr, DecidableEq

/-- `Invoice.calculate_totals`:
`subtotal = sum(item.total_amount for item in self.items.all())`,
`total_discount = sum(item.discount_amount ...)`,
`total_amount = subtotal - total_discount`, then a save of those fields. -/
def Invoice.calculate_totals (inv : Invoice) : Invoice :=
  let st := (inv.items.map (fun it => it.total_amount)).sum
  let td := (inv.items.map (fun it => it.discount_amount)).sum
  { inv with subtotal := st, total_discount := td, total_amount := st - td }

/-- `Invoice.is_overdue`: `self.status != 'paid' and self.due_date < date.today()`,
a pure read. -/
def Invoice.is_overdue (inv : Invoice) (today : ℤ) : Bool :=
  (inv.status != "paid") && decide (inv.due_date < today)

/-- `Subject.current_price` (`src/lessons/models.py`): filter the price
records of the subject by `valid_from__lte=today, is_active=True`, order by
`valid_from` descending, take the first row's `price_per_hour` (the order of
rows sharing a `valid_from` is unspecified by the query; `argmax` picks one
row of maximal `valid_from`). -/
def current_price (records : List PriceRecord) (subject : ℕ) (today : ℤ) :
    Option ℚ :=
  let matching := records.filter (fun r =>
    r.subject == subject && decide (r.valid_from ≤ today) && r.is_active)
  (matching.argmax (fun r => r.valid_from)).map (fun r => r.price_per_hour)

/-- A row of `ContractChangeRequest` (`src/contracts/models.py`), its
nullable `contract` foreign key represented by the contract's item list. -/
structure ContractChangeRequest where
  request_type : String
  contract : Option (List ContractItem)
  child : Option ℕ
  subject : Option ℕ
  estimated_monthly_change : Option ℚ := none
deriving Repr, DecidableEq

/-- `ContractChangeRequest.calculate_estimated_change`
(`src/contracts/models.py`).  The `add_subject` branch runs only when the
`subject` foreign key is set and writes the estimate only when
`current_price` is truthy (a price of `0` is falsy in Python).  The
`remove_subject` branch does `self.contract.items.get(child=..., subject=...,
is_active=True)`: zero matches raises `DoesNotExist`, caught and turned into
an estimate of `0.00`; two or more matches would raise
`MultipleObjectsReturned`, which is not caught — modelled as `none`. -/
def ContractChangeRequest.calculate_estimated_change
    (req : ContractChangeRequest) (records : List PriceRecord) (today : ℤ) :
    Option ContractChangeRequest :=
  if req.request_type == "add_subject" && req.subject.isSome then
    match req.subject with
    | none => some req
    | some subj =>
      match current_price records subj today with
      | none => some req
      | some p =>
        if p != 0 then some { req with estimated_monthly_change := some p }
        else some req
  else if req.request_type == "remove_subject" then
    match req.contract, req.child, req.subject with
    | some items, some c, some s =>
      match items.filter (fun it => it.child == c && it.subject == s && it.is_active) with
      | [] => some { req with estimated_monthly_change := some 0 }
      | [it] => some { req with estimated_monthly_change := some (-it.final_price) }
      | _ => none
    | _, _, _ => some req
  else some req

/-- The spec's discount-eligibility predicate (§4.2 of the spec, claims C3
and C10): the rule is active, `valid_from ≤ today`, `valid_to` is null or
`≥ today`, and each subject-count bound, when set to a nonzero value,
admits the contract's active-item count (a bound of `0`, like an unset
bound, imposes no restriction — see the C10 theorem). -/
def specDiscountApplies (subjects_count today : ℤ) (d : Discount) : Bool :=
  d.is_active && decide (d.valid_from ≤ today) &&
    (match d.valid_to with | none => true | some vt => decide (today ≤ vt)) &&
    (match d.min_subjects with
     | none => true
     | some v => decide (v = 0) || decide (v ≤ subjects_count)) &&
    (match d.max_subjects with
     | none => true
     | some v => decide (v = 0) || decide (subjects_count ≤ v))

/-- The two `continue` guards of the discount loop, packaged as a single
keep-predicate (the rule is kept when neither guard fires). -/
def subjectCountOk (subjects_count : ℤ) (d : Discount) : Bool :=
  !(intTruthy d.min_subjects && decide (subjects_count < d.min_subjects.getD 0)) &&
  !(intTruthy d.max_subjects && decide (d.max_subjects.getD 0 < subjects_count))

/-- Replaces a subject-count bound of `0` by an unset bound. -/
def normalizeZeroBound (o : Option ℤ) : Option ℤ :=
  match o with
  | none => none
  | some v => if v = 0 then none else some v

/-- Replaces zero `min_subjects` / `max_subjects` bounds of a rule by unset
bounds, leaving everything else unchanged. -/
def normalizeZeroBounds (d : Discount) : Discount :=
  { d with min_subjects := normalizeZeroBound d.min_subjects,
           max_subjects := normalizeZeroBound d.max_subjects }

/-- Scenario A of the spec: the two price records of subject "Mathematik"
(subject id 1), dates encoded as `yyyymmdd`. -/
def mathRecords : List PriceRecord :=
  [ { subject := 1, price_per_hour := 20, valid_from := 20240101 },
    { subject := 1, price_per_hour := 25, valid_from := 20240601 } ]

/-- Scenario C of the spec: a contract item with `base_price = 10`. -/
def scenarioCItem : ContractItem :=
  { child := 1, subject := 1, base_price := 10, final_price := 10, is_active := true }

/-- Scenario C of the spec: one absolute discount of 15, valid and
unconditional. -/
def scenarioCRule : Discount :=
  { is_percentage := false, value := 15, valid_from := 0, valid_to := none,
    is_active := true, min_subjects := none, max_subjects := none }

/-- Scenario D of the spec: an active contract item with `final_price = 30`
for child 1 on subject 2. -/
def scenarioDItem : ContractItem :=
  { child := 1, subject := 2, base_price := 30, final_price := 30, is_active := true }

/-- Scenario D of the spec: a `remove_subject` change request targeting the
contract, child and subject of `scenarioDItem`. -/
def scenarioDRequest : ContractChangeRequest :=
  { request_type := "remove_subject", contract := some [scenarioDItem],
    child := some 1, subject := some 2, estimated_monthly_change := none }

/-- An invoice line with a nonzero per-line discount, as stored by
`InvoiceItem.save`: quantity 1 at unit price 10 with discount 3, so its
`total_amount` is 7. -/
def bugInvoiceItem : InvoiceItem :=
  InvoiceItem.save { quantity := 1, unit_price := 10, discount_amount := 3, total_amount := 0 }

/-- An invoice holding just `bugInvoiceItem`, before `calculate_totals`. -/
def bugInvoice : Invoice :=
  { status := "draft", due_date := 0, subtotal := 0, total_discount := 0,
    total_amount := 0, items := [bugInvoiceItem] }

/-- A pricing state with one active contract item of `base_price = 20` and
no stored `ContractItemDiscount` rows. -/
def cexPricingState : PricingState :=
  { items := [{ child := 1, subject := 1, base_price := 20, final_price := 20, is_active := true }],
    applied := [] }

/-- A catalog with a single valid, unconditional 10% discount rule. -/
def cexCatalog : List Discount :=
  [{ is_percentage := true, value := 10, valid_from := 0, valid_to := none,
     is_active := true, min_subjects := none, max_subjects := none }]

/-- Claim C7: immediately after every `InvoiceItem.save`, the stored
`total_amount` equals `quantity * unit_price - discount_amount` — whatever
`total_amount` held before the save — and the three inputs themselves are
stored unchanged. -/
theorem invoice_item_save_total_invariant (it : InvoiceItem) :
    (it.save).total_amount = it.quantity * it.unit_price - it.discount_amount ∧
    (it.save).quantity = it.quantity ∧
    (it.save).unit_price = it.unit_price ∧
    (it.save).discount_amount = it.discount_amount :=
  ⟨rfl, rfl, rfl, rfl⟩

/-- Claim C8: the derived predicate `Invoice.is_overdue` — a pure function
in this embedding, performing no write — is true exactly when the status
differs from `'paid'` and the due date is strictly before today. -/
theorem invoice_is_overdue_iff (inv : Invoice) (today : ℤ) :
    inv.is_overdue today = true ↔ (inv.status ≠ "paid" ∧ inv.due_date < today) := by
  simp [Invoice.is_overdue]

theorem discount_foldl_eq (base_price : ℚ) (subjects_count : ℤ)
    (l : List Discount) (init : ℚ) :
    l.foldl
      (fun total d =>
        if intTruthy d.min_subjects && decide (subjects_count < d.min_subjects.getD 0) then
          total
        else if intTruthy d.max_subjects && decide (d.max_subjects.getD 0 < subjects_count) then
          total
        else total + discountAmount base_price d)
      init
    = init + ((l.filter (subjectCountOk subjects_count)).map (discountAmount base_price)).sum := by
  induction l generalizing init with
  | nil => simp
  | cons d t ih =>
    rw [List.foldl_cons, List.filter_cons]
    cases h1 : (intTruthy d.min_subjects && decide (subjects_count < d.min_subjects.getD 0)) with
    | true =>
      have hok : subjectCountOk subjects_count d = false := by
        simp [subjectCountOk, h1]
      simp only [h1, if_true, hok, Bool.false_eq_true, if_false, ih]
    | false =>
      cases h2 : (intTruthy d.max_subjects && decide (d.max_subjects.getD 0 < subjects_count)) with
      | true =>
        have hok : subjectCountOk subjects_count d = false := by
          simp [subjectCountOk, h2]
        simp only [h1, h2, Bool.false_eq_true, if_false, if_true, hok, ih]
      | false =>
        have hok : subjectCountOk subjects_count d = true := by
          simp [subjectCountOk, h1, h2]
        simp only [h1, h2, Bool.false_eq_true, if_false, hok, if_true, ih,
          List.map_cons, List.sum_cons]
        ring

theorem subject_guards_and_date_eq_spec (subjects_count today : ℤ) (d : Discount) :
    (subjectCountOk subjects_count d && discountDateOk today d)
      = specDiscountApplies subjects_count today d := by
  rcases d with ⟨ip, v, vf, vto, act, mins, maxs⟩
  unfold subjectCountOk discountDateOk specDiscountApplies intTruthy
  rw [Bool.eq_iff_iff]
  cases act <;> rcases vto with _ | vt <;> rcases mins with _ | v1 <;> rcases maxs with _ | v2 <;>
    simp <;> omega

theorem calculate_discounts_eq_spec_sum (base_price : ℚ) (subjects_count today : ℤ)
    (catalog : List Discount) :
    calculate_discounts base_price subjects_count today catalog
      = ((catalog.filter (specDiscountApplies subjects_count today)).map
          (discountAmount base_price)).sum := by
  unfold calculate_discounts
  rw [discount_foldl_eq, zero_add, List.filter_filter]
  have hfe :
      List.filter (fun a => subjectCountOk subjects_count a && discountDateOk today a) catalog
        = List.filter (specDiscountApplies subjects_count today) catalog :=
    List.filter_congr (fun d _ => subject_guards_and_date_eq_spec subjects_count today d)
  rw [hfe]

/-- Claim C3: `calculate_discounts` returns exactly the unclamped sum, over
all catalog rules that are active, have started (`valid_from ≤ today`), have
not ended (`valid_to` null or `≥ today`) and whose subject-count bounds —
when set to a nonzero value; a `0` bound, like an unset one, imposes no
restriction (see the C10 theorem) — admit the contract's active-item count,
of `base_price * value / 100` for percentage rules and `value` for absolute
rules; every matching rule is added (discounts stack). -/
theorem calculate_discounts_matches_spec (base_price : ℚ) (subjects_count today : ℤ)
    (catalog : List Discount) :
    calculate_discounts base_price subjects_count today catalog
      = ((catalog.filter (specDiscountApplies subjects_count today)).map
          (discountAmount base_price)).sum :=
  calculate_discounts_eq_spec_sum base_price subjects_count today catalog

theorem specDiscountApplies_normalize (subjects_count today : ℤ) (d : Discount) :
    specDiscountApplies subjects_count today (normalizeZeroBounds d)
      = specDiscountApplies subjects_count today d := by
  rcases d with ⟨ip, v, vf, vto, act, mins, maxs⟩
  unfold specDiscountApplies normalizeZeroBounds normalizeZeroBound
  rcases mins with _ | v1 <;> rcases maxs with _ | v2
  · rfl
  · by_cases h2 : v2 = 0 <;> simp [h2]
  · by_cases h1 : v1 = 0 <;> simp [h1]
  · by_cases h1 : v1 = 0 <;> by_cases h2 : v2 = 0 <;> simp [h1, h2]

theorem discountAmount_normalize (base_price : ℚ) (d : Discount) :
    discountAmount base_price (normalizeZeroBounds d) = discountAmount base_price d := rfl

/-- Claim C10: in discount evaluation a subject-count bound of `0` is
treated exactly as an unset bound — normalizing every `0` bound to "unset"
never changes the computed discount total — and, in particular, a rule with
`max_subjects = 0` whose other conditions hold is still applied at every
active-item count. -/
theorem zero_subject_bounds_treated_as_unset :
    (∀ (base_price : ℚ) (subjects_count today : ℤ) (catalog : List Discount),
      calculate_discounts base_price subjects_count today (catalog.map normalizeZeroBounds)
        = calculate_discounts base_price subjects_count today catalog)
    ∧ (∀ (base_price v : ℚ) (subjects_count today : ℤ),
      calculate_discounts base_price subjects_count today
          [{ is_percentage := false, value := v, valid_from := today, valid_to := none,
             is_active := true, min_subjects := none, max_subjects := some 0 }]
        = v) := by
  constructor
  · intro base_price subjects_count today catalog
    rw [calculate_discounts_eq_spec_sum, calculate_discounts_eq_spec_sum]
    induction catalog with
    | nil => rfl
    | cons d t ih =>
      rw [List.map_cons, List.filter_cons, List.filter_cons,
        specDiscountApplies_normalize]
      cases hd : specDiscountApplies subjects_count today d with
      | true =>
        simp only [if_true, List.map_cons, List.sum_cons, discountAmount_normalize, ih]
      | false =>
        simp only [Bool.false_eq_true, if_false, ih]
  · intro base_price v subjects_count today
    have hdate : decide (today ≤ today) = true := by simp
    simp [calculate_discounts, discountDateOk, intTruthy, discountAmount, hdate]

theorem calculate_discounts_nonneg (base_price : ℚ) (subjects_count today : ℤ)
    (catalog : List Discount) (hb : 0 ≤ base_price)
    (hval : ∀ d ∈ catalog, d.is_active = true → 0 ≤ d.value) :
    0 ≤ calculate_discounts base_price subjects_count today catalog := by
  rw [calculate_discounts_eq_spec_sum]
  apply List.sum_nonneg
  intro x hx
  rw [List.mem_map] at hx
  obtain ⟨d, hd, rfl⟩ := hx
  rw [List.mem_filter] at hd
  have hact : d.is_active = true := by
    have hspec := hd.2
    unfold specDiscountApplies at hspec
    simp only [Bool.and_eq_true] at hspec
    exact hspec.1.1.1.1
  have hv := hval d hd.1 hact
  unfold discountAmount
  split
  · exact div_nonneg (mul_nonneg hb hv) (by norm_num)
  · exact hv

theorem updateFinalPriceAt_of_none {items : List ContractItem} {k : ℕ}
    (today : ℤ) (catalog : List Discount) (h : items[k]? = none) :
    updateFinalPriceAt items k today catalog = items := by
  unfold updateFinalPriceAt
  rw [h]

theorem updateFinalPriceAt_of_some {items : List ContractItem} {k : ℕ}
    {it : ContractItem} (today : ℤ) (catalog : List Discount)
    (h : items[k]? = some it) :
    updateFinalPriceAt items k today catalog
      = items.set k (it.update_final_price (activeSubjectsCount items) today catalog) := by
  unfold updateFinalPriceAt
  rw [h]

theorem length_filter_set {α : Type} (p : α → Bool) (l : List α) (k : ℕ)
    (a b : α) (hk : l[k]? = some a) (hpb : p b = p a) :
    ((l.set k b).filter p).length = (l.filter p).length := by
  induction l generalizing k with
  | nil => simp at hk
  | cons x t ih =>
    cases k with
    | zero =>
      have hxa : x = a := by simpa using hk
      subst hxa
      rw [List.set_cons_zero, List.filter_cons, List.filter_cons, hpb]
      cases p x <;> simp
    | succ n =>
      have hk2 : t[n]? = some a := by simpa using hk
      rw [List.set_cons_succ, List.filter_cons, List.filter_cons]
      cases p x <;> simp [ih n hk2]

theorem activeSubjectsCount_set (items : List ContractItem) (k : ℕ)
    (it it2 : ContractItem) (hk : items[k]? = some it)
    (hact : it2.is_active = it.is_active) :
    activeSubjectsCount (items.set k it2) = activeSubjectsCount items := by
  unfold activeSubjectsCount
  rw [length_filter_set (fun x => x.is_active) items k it it2 hk hact]

/-- Claim C2: after a call of `ContractItem.update_final_price` on the item
at index `k` of its contract, the persisted item's `final_price` equals
`max (base_price - calculate_discounts item, 0)`; and when the base price is
a price (non-negative) and every active rule in the catalog has a
non-negative value, `0 ≤ final_price ≤ base_price`. -/
theorem update_final_price_formula_and_bounds
    (items : List ContractItem) (k : ℕ) (today : ℤ) (catalog : List Discount)
    (it : ContractItem) (hk : items[k]? = some it)
    (hb : 0 ≤ it.base_price)
    (hval : ∀ d ∈ catalog, d.is_active = true → 0 ≤ d.value) :
    (updateFinalPriceAt items k today catalog)[k]?
        = some (it.update_final_price (activeSubjectsCount items) today catalog)
    ∧ (it.update_final_price (activeSubjectsCount items) today catalog).final_price
        = max (it.base_price
            - calculate_discounts it.base_price (activeSubjectsCount items) today catalog) 0
    ∧ 0 ≤ (it.update_final_price (activeSubjectsCount items) today catalog).final_price
    ∧ (it.update_final_price (activeSubjectsCount items) today catalog).final_price
        ≤ it.base_price := by
  have hlen : k < items.length := by
    rcases List.getElem?_eq_some_iff.mp hk with ⟨h, _⟩
    exact h
  refine ⟨?_, rfl, ?_, ?_⟩
  · rw [updateFinalPriceAt_of_some today catalog hk]
    simp [hlen]
  · show 0 ≤ max (it.base_price
        - calculate_discounts it.base_price (activeSubjectsCount items) today catalog) 0
    exact le_max_right _ _
  · show max (it.base_price
        - calculate_discounts it.base_price (activeSubjectsCount items) today catalog) 0
      ≤ it.base_price
    exact max_le
      (sub_le_self _ (calculate_discounts_nonneg _ _ _ _ hb hval)) hb

/-- Witness for C2 at Scenario C of the spec: base price 10 against one
absolute discount of 15; the clamp yields a final price of 0, not -5. -/
theorem update_final_price_formula_and_bounds_witness :
    (([scenarioCItem] : List ContractItem)[0]? = some scenarioCItem
      ∧ 0 ≤ scenarioCItem.base_price
      ∧ (∀ d ∈ [scenarioCRule], d.is_active = true → 0 ≤ d.value))
    ∧ ((updateFinalPriceAt [scenarioCItem] 0 0 [scenarioCRule])[0]?
          = some (scenarioCItem.update_final_price
              (activeSubjectsCount [scenarioCItem]) 0 [scenarioCRule])
        ∧ (scenarioCItem.update_final_price
              (activeSubjectsCount [scenarioCItem]) 0 [scenarioCRule]).final_price
          = max (scenarioCItem.base_price
              - calculate_discounts scenarioCItem.base_price
                  (activeSubjectsCount [scenarioCItem]) 0 [scenarioCRule]) 0
        ∧ 0 ≤ (scenarioCItem.update_final_price
              (activeSubjectsCount [scenarioCItem]) 0 [scenarioCRule]).final_price
        ∧ (scenarioCItem.update_final_price
              (activeSubjectsCount [scenarioCItem]) 0 [scenarioCRule]).final_price
          ≤ scenarioCItem.base_price)
    ∧ (scenarioCItem.update_final_price
          (activeSubjectsCount [scenarioCItem]) 0 [scenarioCRule]).final_price = 0 :=
  ⟨⟨rfl, by decide, by decide⟩,
   update_final_price_formula_and_bounds [scenarioCItem] 0 0 [scenarioCRule]
     scenarioCItem rfl (by decide) (by decide),
   by
    show max (scenarioCItem.base_price
        - calculate_discounts scenarioCItem.base_price
            (activeSubjectsCount [scenarioCItem]) 0 [scenarioCRule]) 0 = 0
    rw [(by norm_num [scenarioCItem, scenarioCRule, calculate_discounts,
          activeSubjectsCount, discountDateOk, intTruthy, discountAmount] :
      scenarioCItem.base_price
        - calculate_discounts scenarioCItem.base_price
            (activeSubjectsCount [scenarioCItem]) 0 [scenarioCRule] = -5)]
    rfl⟩

/-- Claim C4: `update_final_price` is idempotent — recomputing the same item
twice in a row, with the discount catalog, the contract's items (hence its
active-item count) and the item's `base_price` unchanged in between, leaves
the contract state exactly as after the first call. -/
theorem update_final_price_idempotent (items : List ContractItem) (k : ℕ)
    (today : ℤ) (catalog : List Discount) :
    updateFinalPriceAt (updateFinalPriceAt items k today catalog) k today catalog
      = updateFinalPriceAt items k today catalog := by
  cases hk : items[k]? with
  | none =>
    rw [updateFinalPriceAt_of_none today catalog hk,
      updateFinalPriceAt_of_none today catalog hk]
  | some it =>
    have hlen : k < items.length := by
      rcases List.getElem?_eq_some_iff.mp hk with ⟨h, _⟩
      exact h
    rw [updateFinalPriceAt_of_some today catalog hk]
    have hget2 :
        (items.set k (it.update_final_price (activeSubjectsCount items) today catalog))[k]?
          = some (it.update_final_price (activeSubjectsCount items) today catalog) := by
      simp [hlen]
    rw [updateFinalPriceAt_of_some today catalog hget2]
    have hcnt :
        activeSubjectsCount
            (items.set k (it.update_final_price (activeSubjectsCount items) today catalog))
          = activeSubjectsCount items :=
      activeSubjectsCount_set items k it _ hk rfl
    rw [hcnt, List.set_set]
    have hsame :
        (it.update_final_price (activeSubjectsCount items) today catalog).update_final_price
            (activeSubjectsCount items) today catalog
          = it.update_final_price (activeSubjectsCount items) today catalog := by
      unfold ContractItem.update_final_price
      rfl
    rw [hsame]

/-- Claim C5: `current_price` returns the price of an active record with
`valid_from ≤ asOf` of maximal `valid_from` (latest wins), and `none` when
no record qualifies; on Scenario A of the spec (records priced 20 from
2024-01-01 and 25 from 2024-06-01) it returns 20 at 2024-03-01 and 25 at
2024-07-01. -/
theorem current_price_latest_wins :
    (∀ (records : List PriceRecord) (subject : ℕ) (today : ℤ),
      (current_price records subject today = none ↔
        ∀ r ∈ records, ¬(r.subject = subject ∧ r.valid_from ≤ today ∧ r.is_active = true))
      ∧ (∀ p, current_price records subject today = some p →
          ∃ r ∈ records,
            r.subject = subject ∧ r.valid_from ≤ today ∧ r.is_active = true
            ∧ r.price_per_hour = p
            ∧ ∀ s ∈ records, s.subject = subject → s.valid_from ≤ today →
                s.is_active = true → s.valid_from ≤ r.valid_from))
    ∧ current_price mathRecords 1 20240301 = some 20
    ∧ current_price mathRecords 1 20240701 = some 25 := by
  refine ⟨?_, by decide, by decide⟩
  intro records subject today
  constructor
  · unfold current_price
    rw [Option.map_eq_none', List.argmax_eq_none, List.filter_eq_nil_iff]
    constructor
    · intro h r hr hcond
      exact (h r hr) (by simp [hcond.1, hcond.2.1, hcond.2.2])
    · intro h r hr hpred
      simp only [Bool.and_eq_true, beq_iff_eq, decide_eq_true_eq] at hpred
      exact h r hr ⟨hpred.1.1, hpred.1.2, hpred.2⟩
  · intro p hp
    unfold current_price at hp
    rw [Option.map_eq_some'] at hp
    obtain ⟨m, hm, hprice⟩ := hp
    have hmem := List.argmax_mem hm
    rw [List.mem_filter] at hmem
    obtain ⟨hmrec, hmpred⟩ := hmem
    simp only [Bool.and_eq_true, beq_iff_eq, decide_eq_true_eq] at hmpred
    refine ⟨m, hmrec, hmpred.1.1, hmpred.1.2, hmpred.2, hprice, ?_⟩
    intro s hs h1 h2 h3
    have hsmem : s ∈ records.filter
        (fun r => r.subject == subject && decide (r.valid_from ≤ today) && r.is_active) :=
      List.mem_filter.mpr ⟨hs, by simp [h1, h2, h3]⟩
    exact le_of_not_lt (List.not_lt_of_mem_argmax hsmem hm)

/-- Claim C1 is violated by the code (code bug): `calculate_totals` sets
`subtotal` to the sum of the items' post-discount `total_amount` values and
then subtracts `total_discount` from it again, so the per-line discounts
are counted twice.  At an invoice with one saved line of quantity 1, unit
price 10 and discount 3 (line total 7), the code persists subtotal 7,
total_discount 3 and total_amount 4 — while the claim requires subtotal 10
(the pre-discount amount) and hence total_amount 7.  Only the relations
`total_amount = subtotal - total_discount` and
`total_discount = sum of discount_amount` hold. -/
theorem invoice_calculate_totals_discount_double_counted :
    bugInvoiceItem.total_amount
        = bugInvoiceItem.quantity * bugInvoiceItem.unit_price - bugInvoiceItem.discount_amount
    ∧ (bugInvoice.calculate_totals).total_amount
        = (bugInvoice.calculate_totals).subtotal - (bugInvoice.calculate_totals).total_discount
    ∧ (bugInvoice.calculate_totals).subtotal = 7
    ∧ (bugInvoice.calculate_totals).total_discount = 3
    ∧ (bugInvoice.calculate_totals).total_amount = 4
    ∧ ¬(bugInvoice.calculate_totals).subtotal
        = bugInvoiceItem.quantity * bugInvoiceItem.unit_price := by
  norm_num [bugInvoice, bugInvoiceItem, Invoice.calculate_totals, InvoiceItem.save]

/-- Counterexample to claim C6: a recalculation that actually applies a
discount rule creates no `ContractItemDiscount` row.  With one active item
of base price 20 and a catalog holding one valid 10% rule, the rule is
applied (the discount total is 2 and the persisted final price drops to
18), yet the set of stored `ContractItemDiscount` rows stays empty. -/
theorem update_final_price_applied_rows_cex :
    calculate_discounts 20 1 0 cexCatalog = 2
    ∧ (updateFinalPriceState cexPricingState 0 0 cexCatalog).items.map
        (fun it => it.final_price) = [18]
    ∧ (updateFinalPriceState cexPricingState 0 0 cexCatalog).applied = []
    ∧ ¬∃ row, row ∈ (updateFinalPriceState cexPricingState 0 0 cexCatalog).applied := by
  have hd : calculate_discounts 20 1 0 cexCatalog = 2 := by
    norm_num [calculate_discounts, cexCatalog, discountDateOk, intTruthy, discountAmount]
  refine ⟨hd, ?_, rfl, by
    show ¬∃ row, row ∈ ([] : List ContractItemDiscount)
    simp⟩
  show [max ((20 : ℚ) - calculate_discounts 20 1 0 cexCatalog) 0] = [18]
  rw [hd, (by norm_num : (20 : ℚ) - 2 = 18)]
  rfl

/-- Claim C6 amended: `update_final_price` only recomputes and persists
`final_price`; it never creates (or touches) `ContractItemDiscount` rows —
those are only ever entered manually through the admin inline. -/
theorem update_final_price_preserves_applied_rows
    (s : PricingState) (k : ℕ) (today : ℤ) (catalog : List Discount) :
    (updateFinalPriceState s k today catalog).applied = s.applied := rfl

theorem filter_match_eq_singleton (items : List ContractItem) (c s : ℕ)
    (huniq : items.Pairwise (fun a b => a.child ≠ b.child ∨ a.subject ≠ b.subject))
    (it : ContractItem) (hmem : it ∈ items)
    (hc : it.child = c) (hs : it.subject = s) (ha : it.is_active = true) :
    items.filter (fun x => x.child == c && x.subject == s && x.is_active) = [it] := by
  induction items with
  | nil => simp at hmem
  | cons a t ih =>
    rw [List.pairwise_cons] at huniq
    rcases List.mem_cons.mp hmem with rfl | hmem2
    · rw [List.filter_cons_of_pos (by simp [hc, hs, ha])]
      have hnil : t.filter (fun x => x.child == c && x.subject == s && x.is_active) = [] := by
        rw [List.filter_eq_nil_iff]
        intro b hb hpred
        simp only [Bool.and_eq_true, beq_iff_eq] at hpred
        rcases huniq.1 b hb with hne | hne
        · exact hne (by rw [hc, hpred.1.1])
        · exact hne (by rw [hs, hpred.1.2])
      rw [hnil]
    · have hpa : ¬(a.child == c && a.subject == s && a.is_active) = true := by
        intro hpred
        simp only [Bool.and_eq_true, beq_iff_eq] at hpred
        rcases huniq.1 it hmem2 with hne | hne
        · exact hne (by rw [hpred.1.1, hc])
        · exact hne (by rw [hpred.1.2, hs])
      rw [@List.filter_cons_of_neg _ (fun x => x.child == c && x.subject == s && x.is_active)
        a t hpa]
      exact ih huniq.2 hmem2

/-- Claim C9: for a `remove_subject` change request with contract, child and
subject set, `calculate_estimated_change` persists the negated
`final_price` of the contract's matching active item when one exists, and
`0.00` when none does (the uniqueness hypothesis mirrors the model's
`unique_together` constraint on (contract, child, subject)). -/
theorem estimated_change_remove_subject
    (req : ContractChangeRequest) (records : List PriceRecord) (today : ℤ)
    (items : List ContractItem) (c s : ℕ)
    (ht : req.request_type = "remove_subject")
    (hcon : req.contract = some items)
    (hch : req.child = some c)
    (hsub : req.subject = some s)
    (huniq : items.Pairwise (fun a b => a.child ≠ b.child ∨ a.subject ≠ b.subject)) :
    (∀ it ∈ items, it.child = c → it.subject = s → it.is_active = true →
      req.calculate_estimated_change records today
        = some { req with estimated_monthly_change := some (-it.final_price) })
    ∧ ((∀ it ∈ items, ¬(it.child = c ∧ it.subject = s ∧ it.is_active = true)) →
      req.calculate_estimated_change records today
        = some { req with estimated_monthly_change := some (0 : ℚ) }) := by
  constructor
  · intro it hmem hc hs ha
    have hfil := filter_match_eq_singleton items c s huniq it hmem hc hs ha
    simp [ContractChangeRequest.calculate_estimated_change, ht, hcon, hch, hsub, hfil]
  · intro hnone
    have hnil : items.filter (fun x => x.child == c && x.subject == s && x.is_active) = [] := by
      rw [List.filter_eq_nil_iff]
      intro b hb hpred
      simp only [Bool.and_eq_true, beq_iff_eq] at hpred
      exact hnone b hb ⟨hpred.1.1, hpred.1.2, hpred.2⟩
    simp [ContractChangeRequest.calculate_estimated_change, ht, hcon, hch, hsub, hnil]

/-- Witness for C9 at Scenario D of the spec: removing the subject of an
active item with `final_price = 30` estimates -30.00; a request whose
contract has no matching item estimates 0.00. -/
theorem estimated_change_remove_subject_witness :
    (scenarioDRequest.request_type = "remove_subject"
      ∧ scenarioDRequest.contract = some [scenarioDItem]
      ∧ scenarioDRequest.child = some 1
      ∧ scenarioDRequest.subject = some 2
      ∧ ([scenarioDItem] : List ContractItem).Pairwise
          (fun a b => a.child ≠ b.child ∨ a.subject ≠ b.subject))
    ∧ ((∀ it ∈ ([scenarioDItem] : List ContractItem),
          it.child = 1 → it.subject = 2 → it.is_active = true →
          scenarioDRequest.calculate_estimated_change [] 0
            = some { scenarioDRequest with estimated_monthly_change := some (-it.final_price) })
        ∧ ((∀ it ∈ ([scenarioDItem] : List ContractItem),
            ¬(it.child = 1 ∧ it.subject = 2 ∧ it.is_active = true)) →
          scenarioDRequest.calculate_estimated_change [] 0
            = some { scenarioDRequest with estimated_monthly_change := some (0 : ℚ) }))
    ∧ scenarioDRequest.calculate_estimated_change [] 0
        = some { scenarioDRequest with estimated_monthly_change := some (-30 : ℚ) }
    ∧ ({ scenarioDRequest with contract := some [] } :
          ContractChangeRequest).calculate_estimated_change [] 0
        = some { scenarioDRequest with
                 contract := some []
                 estimated_monthly_change := some (0 : ℚ) } :=
  ⟨⟨rfl, rfl, rfl, rfl, by simp⟩,
   estimated_change_remove_subject scenarioDRequest [] 0 [scenarioDItem] 1 2
     rfl rfl rfl rfl (by simp),
   by simp [ContractChangeRequest.calculate_estimated_change, scenarioDRequest, scenarioDItem],
   by simp [ContractChangeRequest.calculate_estimated_change, scenarioDRequest]⟩

end App
